import Mathlib

/-!
Verification of the svitlo power-monitoring service (Go sources: deye.go,
dtek.go, main.go, telegram.go, config.go) against its natural-language
specification.  The Go code is shallowly embedded: every pure computation
becomes a Lean function, the stateful clients become explicit state-passing
functions, the HTTP world is an oracle parameter, and the two concurrent
callers of the token manager become an interleaved transition system.
float64 telemetry fields are modelled as rationals (the code only compares
them with 0 and passes them through), time instants as integers (seconds).
-/

namespace Svitlo

/-! ## Telemetry client: station/device responses and PowerStatus
    (deye.go: StationLatestResponse, DeviceLatestResponse, ptrVal,
    GetPowerStatus) -/

/-- `StationLatestResponse` (deye.go): optional numeric fields are `*float64`
in Go, here `Option ℚ`; `nil` = sensor absent. -/
structure StationLatestResponse where
  success : Bool
  generationPower : Option ℚ
  consumptionPower : Option ℚ
  gridPower : Option ℚ
  purchasePower : Option ℚ
  wirePower : Option ℚ
  batteryPower : Option ℚ
  batterySOC : Option ℚ
  chargePower : Option ℚ
  dischargePower : Option ℚ
  lastUpdateTime : ℚ
  deriving Repr, DecidableEq

/-- `DeviceLatestEntry` (deye.go): deviceState 1=Online, 2=Alert, 3=Offline. -/
structure DeviceLatestEntry where
  deviceSn : String
  deviceState : Int
  collectionTime : Int
  deriving Repr, DecidableEq

/-- `DeviceLatestResponse` (deye.go). -/
structure DeviceLatestResponse where
  success : Bool
  deviceList : List DeviceLatestEntry
  deriving Repr, DecidableEq

/-- `PowerStatus` (deye.go). -/
structure PowerStatus where
  hasGrid : Bool
  gridPower : ℚ
  purchasePower : ℚ
  generationPower : ℚ
  consumptionPower : ℚ
  batterySOC : ℚ
  batteryPower : ℚ
  dischargePower : ℚ
  deviceOnline : Bool
  deviceState : Int
  lastUpdateTime : ℚ
  deriving Repr, DecidableEq

/-- `ptrVal` (deye.go): `nil` normalizes to `0`. -/
def ptrVal (p : Option ℚ) : ℚ :=
  match p with
  | none => 0
  | some v => v

/-- The grid-present derivation inside `GetPowerStatus` (deye.go lines
344-350): `hasGrid := false; if GridPower != nil || PurchasePower != nil
then hasGrid = gridPower > 0 || purchasePower > 0`. -/
def hasGridOf (gridPower purchasePower : Option ℚ) : Bool :=
  if gridPower.isSome || purchasePower.isSome then
    decide (ptrVal gridPower > 0) || decide (ptrVal purchasePower > 0)
  else
    false

/-- The `PowerStatus` record that `GetPowerStatus` (deye.go lines 341-369)
builds from an already-fetched successful station response and the fetched
device list: station fields through `ptrVal`, then
`if len(device.DeviceList) > 0` fills deviceOnline/deviceState, else both
keep their Go zero values (`false`, `0`). -/
def composePowerStatus (station : StationLatestResponse)
    (deviceList : List DeviceLatestEntry) : PowerStatus :=
  let base : PowerStatus :=
    { hasGrid := hasGridOf station.gridPower station.purchasePower
      gridPower := ptrVal station.gridPower
      purchasePower := ptrVal station.purchasePower
      generationPower := ptrVal station.generationPower
      consumptionPower := ptrVal station.consumptionPower
      batterySOC := ptrVal station.batterySOC
      batteryPower := ptrVal station.batteryPower
      dischargePower := ptrVal station.dischargePower
      deviceOnline := false
      deviceState := 0
      lastUpdateTime := station.lastUpdateTime }
  match deviceList with
  | [] => base
  | d :: _ => { base with deviceOnline := decide (d.deviceState = 1),
                          deviceState := d.deviceState }

/-- `GetPowerStatus` (deye.go) given the two fetch results:
`GetStationLatest`/`GetDeviceLatest` each turn `!resp.Success` into an
error; any transport error has already been surfaced as `Except.error`
by the oracle before this point. -/
def getPowerStatus (station : StationLatestResponse)
    (device : DeviceLatestResponse) : Except String PowerStatus :=
  if !station.success then
    Except.error "station latest failed"
  else if !device.success then
    Except.error "device latest failed"
  else
    Except.ok (composePowerStatus station device.deviceList)

/-! ## Token manager: Authenticate (deye.go lines 64-125) -/

/-- `tokenResponse` (deye.go). -/
structure TokenResponse where
  success : Bool
  code : String
  msg : String
  accessToken : String
  deriving Repr, DecidableEq

/-- The character content of the Go string literal "Bearer ". -/
def bearerPrefix : List Char := "Bearer ".toList

/-- The pure tail of `Authenticate` (deye.go lines 107-118): on
`!tokenResp.Success` an error; otherwise the stored token is the provider
token, "Bearer "-prefixed when it lacks the prefix (Go
`strings.HasPrefix`).  Returns the character content of the new stored
`accessToken`. -/
def authenticateStoredToken (resp : TokenResponse) : Except String (List Char) :=
  if !resp.success then
    Except.error "deye auth failed"
  else
    let token := resp.accessToken.toList
    Except.ok (if List.isPrefixOf bearerPrefix token then token
               else bearerPrefix ++ token)

/-! ## doRequest retry behaviour (deye.go lines 144-194)

The HTTP world is an oracle: `respStatus k` is the status code the server
answers to the k-th telemetry request attempt, `authOk k` tells whether the
k-th `Authenticate` exchange succeeds.  The client state is the stored
token together with whether `time.Now().After(expiresAt)` holds right now.
The Go recursion `return c.doRequest(path, reqBody, result)` is unbounded,
so it is embedded with explicit fuel: `none` means the computation has not
returned within `fuel` recursive calls. -/

/-- The request/auth oracle seen by `doRequest`. -/
structure DoReqEnv where
  respStatus : Nat → Nat
  authOk : Nat → Bool

/-- The token-relevant client state (`accessToken`, and
`time.Now().After(expiresAt)` collapsed to a Bool since no further time
arithmetic happens on the hot path). -/
structure ClientState where
  accessToken : String
  expiredNow : Bool
  deriving Repr, DecidableEq

/-- `Authenticate` (deye.go) as seen from the retry path: the a-th exchange
either fails, or stores a fresh Bearer token with a far-future expiry. -/
def authenticateCall (env : DoReqEnv) (a : Nat) (_s : ClientState) :
    Except String ClientState :=
  if env.authOk a then
    Except.ok { accessToken := "Bearer fresh", expiredNow := false }
  else
    Except.error "re-auth failed"

/-- `getToken` (deye.go lines 127-142): read token and expiry under the
lock; if the token is empty or expired, `Authenticate` and re-read.
Returns the token, the new state, and the next auth-exchange index. -/
def getTokenCall (env : DoReqEnv) (a : Nat) (s : ClientState) :
    Except String (String × ClientState × Nat) :=
  let token := s.accessToken
  let expired := s.expiredNow
  if token = "" || expired then
    match authenticateCall env a s with
    | Except.error e => Except.error e
    | Except.ok s1 => Except.ok (s1.accessToken, s1, a + 1)
  else
    Except.ok (token, s, a)

/-- `doRequest` (deye.go lines 144-194) with fuel.  `r` counts request
attempts, `a` counts auth exchanges.  On a 401 the code re-authenticates
and then recursively calls `doRequest` itself (line 186) — there is no
retried-already flag, which is the behaviour under verification.  A
non-401 answer unmarshals and returns ok. -/
def doRequestFuel (env : DoReqEnv) :
    Nat → ClientState → Nat → Nat → Option (Except String ClientState)
  | 0, _, _, _ => none
  | fuel + 1, s, r, a =>
    match getTokenCall env a s with
    | Except.error e => some (Except.error ("get token: " ++ e))
    | Except.ok (_token, s1, a1) =>
      if env.respStatus r = 401 then
        match authenticateCall env a1 s1 with
        | Except.error e => some (Except.error ("re-auth failed: " ++ e))
        | Except.ok s2 => doRequestFuel env fuel s2 (r + 1) (a1 + 1)
      else
        some (Except.ok s1)

/-- A server that answers 401 to every telemetry request while every
re-authentication succeeds: the failing scenario for the retry policy. -/
def always401Env : DoReqEnv :=
  { respStatus := fun _ => 401, authOk := fun _ => true }

/-! ## Power State Monitor (main.go: runDeyePoller / checkAndNotify)

A poll cycle either fails to fetch (`none`) or samples grid-present
(`some b`).  `lastHasGrid` starts as `nil` (Unknown). -/

/-- The three message kinds `checkAndNotify` can broadcast. -/
inductive Notification
  | initial (hasGrid : Bool)
  | powerOn
  | powerOff
  deriving Repr, DecidableEq

/-- One run of `checkAndNotify` (main.go lines 113-148): a failed
`GetPowerStatus` logs and returns (state untouched, nothing sent); the
first successful sample stores the flag and broadcasts the status message;
afterwards a changed flag stores it and broadcasts the power-on/off alert,
an unchanged flag does nothing. -/
def checkAndNotify (lastHasGrid : Option Bool) (sample : Option Bool) :
    Option Bool × List Notification :=
  match sample with
  | none => (lastHasGrid, [])
  | some current =>
    match lastHasGrid with
    | none => (some current, [Notification.initial current])
    | some last =>
      if current ≠ last then
        (some current, [if current then Notification.powerOn
                        else Notification.powerOff])
      else
        (lastHasGrid, [])

/-- The stored `lastHasGrid` after the poller has processed a list of
cycles, starting from `init`. -/
def monitorState (init : Option Bool) : List (Option Bool) → Option Bool
  | [] => init
  | sample :: rest => monitorState (checkAndNotify init sample).1 rest

/-- The notifications the cycle at index `i` emits, in a run over
`samples` that starts in the Unknown state. -/
def emitAt (samples : List (Option Bool)) (i : Nat) : List Notification :=
  (checkAndNotify (monitorState none (samples.take i)) (samples.getD i none)).2

/-- The flag of the last successfully sampled cycle in a list (what the
spec calls the immediately preceding successfully sampled flag): the last
`some` entry, or `none` when no cycle sampled successfully. -/
def lastSampled : List (Option Bool) → Option Bool
  | [] => none
  | sample :: rest =>
    match lastSampled rest with
    | some b => some b
    | none => sample

/-- Whether a cycle's emission contains an alert-style transition
notification. -/
def emitsTransition (ns : List Notification) : Bool :=
  ns.any fun n => n = Notification.powerOn || n = Notification.powerOff

/-! ## Outage Schedule Client cache (dtek.go: GetShutdown, dtekCacheTTL)

`FetchShutdowns` returns either an error, or `nil` meaning no outage
scheduled for the house, or a shutdown record; the cache stores the value
together with the fetch instant and a valid flag.  Time is in seconds. -/

/-- `DtekShutdown` (dtek.go). -/
structure DtekShutdown where
  subType : String
  startDate : String
  endDate : String
  shType : String
  reason : List String
  deriving Repr, DecidableEq

/-- `dtekCacheTTL = 10 * time.Minute` (dtek.go line 474), in seconds. -/
def dtekCacheTTL : Int := 10 * 60

/-- The cache fields of `DtekClient` (dtek.go). -/
structure DtekState where
  cachedAt : Int
  cachedValue : Option DtekShutdown
  cacheHit : Bool
  deriving Repr, DecidableEq

/-- `GetShutdown` (dtek.go lines 483-500) under the lock, at instant
`now`, with `fetch` the outcome `FetchShutdowns` would produce if invoked:
a valid cache younger than the TTL answers from the cache; otherwise the
fetch runs — an error is returned with the fields untouched, a success
(including the `nil` = no-outage value) refreshes value, timestamp and
valid flag.  The Bool reports whether `FetchShutdowns` was invoked. -/
def getShutdown (s : DtekState) (now : Int)
    (fetch : Except String (Option DtekShutdown)) :
    Except String (Option DtekShutdown) × DtekState × Bool :=
  if s.cacheHit && decide (now - s.cachedAt < dtekCacheTTL) then
    (Except.ok s.cachedValue, s, false)
  else
    match fetch with
    | Except.error e => (Except.error e, s, true)
    | Except.ok v =>
      (Except.ok v, { cachedAt := now, cachedValue := v, cacheHit := true },
       true)

/-! ## Inbound command listener cursor (telegram.go: GetUpdates) -/

/-- `Update` (telegram.go); the message payload is irrelevant to the
cursor. -/
structure TgUpdate where
  updateID : Int
  hasMessage : Bool
  deriving Repr, DecidableEq

/-- The offset update at the end of `GetUpdates` (telegram.go):
`if len(Result) > 0 then offset = Result[len-1].UpdateID + 1`. -/
def nextOffset (offset : Int) (result : List TgUpdate) : Int :=
  match result.getLast? with
  | none => offset
  | some u => u.updateID + 1

/-- The highest update identifier in a batch (what the spec says the
cursor advances past). -/
def highestID : List TgUpdate → Int
  | [] => 0
  | u :: rest => rest.foldl (fun acc v => max acc v.updateID) u.updateID

/-! ## Two concurrent callers of getToken (deye.go lines 64-66, 127-142)

`getToken` takes `c.mu`, reads the token and the expiry, releases `c.mu`,
and only then — outside the lock — decides whether to call `Authenticate`,
which takes `c.mu` again for the whole exchange and its store.  Each
lock-protected region is one atomic step of a thread; the steps of the two
threads interleave under an explicit schedule.  Both threads start with
the stored token empty/expired, exactly the race in the claim. -/

/-- Program locations of one `getToken` caller. -/
inductive TmLoc
  | start
  | readCS
  | branch
  | authAcq
  | authCS
  | reAcq
  | reCS
  | finished
  deriving Repr, DecidableEq

/-- One caller: its location and the need-auth flag it computed from its
lock-protected read (`token == "" || expired`). -/
structure TmThread where
  loc : TmLoc
  needAuth : Bool
  deriving Repr, DecidableEq

/-- The shared token-manager state: who holds `c.mu`, whether the stored
token is currently empty-or-expired, and how many authentication requests
have been sent to the provider. -/
structure TmState where
  lock : Option Bool
  tokenValid : Bool
  authCount : Nat
  thread0 : TmThread
  thread1 : TmThread
  deriving Repr, DecidableEq

/-- Locations at which a thread is inside a `c.mu`-protected region. -/
def TmLoc.holdsLock : TmLoc → Bool
  | TmLoc.readCS => true
  | TmLoc.authCS => true
  | TmLoc.reCS => true
  | _ => false

/-- One atomic step of thread `tid` of the getToken race.  Lock acquires
block (no-op) while the other thread holds `c.mu`; the `authCS` step is the
whole `Authenticate` body (deye.go lines 64-125) executed under the lock,
here with the exchange succeeding.  Thread ids are `false` (thread 0) and
`true` (thread 1). -/
def tmThreadStep (t : TmThread) (tid : Bool) (s : TmState) :
    TmThread × Option Bool × Bool × Nat :=
  match t.loc with
  | TmLoc.start =>
    match s.lock with
    | none => ({ t with loc := TmLoc.readCS }, some tid, s.tokenValid,
               s.authCount)
    | some _ => (t, s.lock, s.tokenValid, s.authCount)
  | TmLoc.readCS =>
    ({ loc := TmLoc.branch, needAuth := !s.tokenValid }, none, s.tokenValid,
     s.authCount)
  | TmLoc.branch =>
    ({ t with loc := if t.needAuth then TmLoc.authAcq else TmLoc.finished },
     s.lock, s.tokenValid, s.authCount)
  | TmLoc.authAcq =>
    match s.lock with
    | none => ({ t with loc := TmLoc.authCS }, some tid, s.tokenValid,
               s.authCount)
    | some _ => (t, s.lock, s.tokenValid, s.authCount)
  | TmLoc.authCS =>
    ({ t with loc := TmLoc.reAcq }, none, true, s.authCount + 1)
  | TmLoc.reAcq =>
    match s.lock with
    | none => ({ t with loc := TmLoc.reCS }, some tid, s.tokenValid,
               s.authCount)
    | some _ => (t, s.lock, s.tokenValid, s.authCount)
  | TmLoc.reCS =>
    ({ t with loc := TmLoc.finished }, none, s.tokenValid, s.authCount)
  | TmLoc.finished =>
    (t, s.lock, s.tokenValid, s.authCount)

/-- Scheduler step: run one atomic step of the scheduled thread. -/
def tmStep (s : TmState) (tid : Bool) : TmState :=
  match tid with
  | false =>
    let r := tmThreadStep s.thread0 false s
    { s with thread0 := r.1, lock := r.2.1, tokenValid := r.2.2.1,
             authCount := r.2.2.2 }
  | true =>
    let r := tmThreadStep s.thread1 true s
    { s with thread1 := r.1, lock := r.2.1, tokenValid := r.2.2.1,
             authCount := r.2.2.2 }

/-- Run a schedule (list of thread ids) from a state. -/
def tmRun (s : TmState) : List Bool → TmState
  | [] => s
  | tid :: rest => tmRun (tmStep s tid) rest

/-- Both callers start before their first lock acquire, with the stored
token missing/expired, the lock free and no auth request sent yet. -/
def tmInit : TmState :=
  { lock := none, tokenValid := false, authCount := 0,
    thread0 := { loc := TmLoc.start, needAuth := false },
    thread1 := { loc := TmLoc.start, needAuth := false } }

/-- The schedule in which each thread first performs its lock-protected
expiry check, and only then each performs its authentication. -/
def tmRaceSchedule : List Bool :=
  [false, false, false, true, true, true,
   false, false, false, false, true, true, true, true]

/-- Mutual-exclusion shape of a state: a thread inside a `c.mu` region is
the lock holder, and the lock names a thread actually inside a region. -/
def tmLockInv (s : TmState) : Prop :=
  (s.thread0.loc.holdsLock = true → s.lock = some false) ∧
  (s.thread1.loc.holdsLock = true → s.lock = some true)

/-! ## Theorems -/

/-- C3: `GetPowerStatus` sets grid-present to true iff at least one of the
two grid-related raw fields is present and, after absent values normalize
to zero via `ptrVal`, at least one of them is strictly greater than zero;
with both fields absent it is false, and with gridPower = 0,
purchasePower = 150 it is true. -/
theorem hasGrid_derivation (gp pp : Option ℚ) :
    (hasGridOf gp pp = true ↔
      (gp.isSome = true ∨ pp.isSome = true) ∧
        (0 < ptrVal gp ∨ 0 < ptrVal pp)) ∧
    hasGridOf none none = false ∧
    hasGridOf (some 0) (some 150) = true := by
  refine ⟨?_, rfl, rfl⟩
  unfold hasGridOf
  by_cases h : gp.isSome || pp.isSome
  · rw [if_pos h]
    simp only [Bool.or_eq_true, decide_eq_true_eq] at h ⊢
    exact ⟨fun hor => ⟨h, hor⟩, fun hand => hand.2⟩
  · rw [if_neg h]
    simp only [Bool.or_eq_true] at h
    simp only [Bool.false_eq_true, false_iff, not_and]
    intro hsome
    exact absurd hsome h

/-- C3 witness: the concrete gridPower = 0, purchasePower = 150 case. -/
theorem hasGrid_derivation_witness :
    hasGridOf (some 0) (some 150) = true :=
  (hasGrid_derivation (some 0) (some 150)).2.2

/-- C9: with an empty device list in a successful device-latest response,
`GetPowerStatus` succeeds and returns the station-derived status with
DeviceOnline = false and DeviceState = 0. -/
theorem getPowerStatus_empty_devices (station : StationLatestResponse)
    (h : station.success = true) :
    getPowerStatus station { success := true, deviceList := [] } =
      Except.ok
        { hasGrid := hasGridOf station.gridPower station.purchasePower
          gridPower := ptrVal station.gridPower
          purchasePower := ptrVal station.purchasePower
          generationPower := ptrVal station.generationPower
          consumptionPower := ptrVal station.consumptionPower
          batterySOC := ptrVal station.batterySOC
          batteryPower := ptrVal station.batteryPower
          dischargePower := ptrVal station.dischargePower
          deviceOnline := false
          deviceState := 0
          lastUpdateTime := station.lastUpdateTime } := by
  have hs : (!station.success) = false := by rw [h]; rfl
  unfold getPowerStatus
  rw [hs]
  rfl

/-- C9 witness: a concrete successful station response with an empty
device list. -/
theorem getPowerStatus_empty_devices_witness :
    getPowerStatus
        { success := true, generationPower := some 100,
          consumptionPower := some 200, gridPower := some 0,
          purchasePower := some 150, wirePower := none,
          batteryPower := none, batterySOC := some 80, chargePower := none,
          dischargePower := none, lastUpdateTime := 1700000000 }
        { success := true, deviceList := [] } =
      Except.ok
        { hasGrid := true, gridPower := 0, purchasePower := 150,
          generationPower := 100, consumptionPower := 200,
          batterySOC := 80, batteryPower := 0, dischargePower := 0,
          deviceOnline := false, deviceState := 0,
          lastUpdateTime := 1700000000 } := by
  rw [getPowerStatus_empty_devices _ rfl]
  rfl

/-- C10: every successful `Authenticate` stores an access token whose
characters begin with "Bearer ". -/
theorem authenticate_token_bearer (resp : TokenResponse) (tok : List Char)
    (h : authenticateStoredToken resp = Except.ok tok) :
    List.isPrefixOf bearerPrefix tok = true := by
  by_cases hs : resp.success = true
  · simp only [authenticateStoredToken, hs, Bool.not_true, Bool.false_eq_true,
      if_false, Except.ok.injEq] at h
    subst h
    split
    next hp => exact hp
    next hp => exact List.isPrefixOf_iff_prefix.mpr (List.prefix_append _ _)
  · simp only [authenticateStoredToken, Bool.not_eq_true] at h
    rw [Bool.not_eq_true] at hs
    rw [hs] at h
    simp at h

/-- C10 witness: a successful token response whose provider token lacks
the prefix. -/
theorem authenticate_token_bearer_witness :
    List.isPrefixOf bearerPrefix
      ("Bearer ".toList ++ "raw-token".toList) = true :=
  authenticate_token_bearer
    { success := true, code := "0", msg := "ok", accessToken := "raw-token" }
    ("Bearer ".toList ++ "raw-token".toList) rfl

/-- C6: after a successful outage fetch returning absent (no scheduled
outage) at instant `t0`, every `GetShutdown` call strictly inside the TTL
window answers the cached absent value without invoking `FetchShutdowns`,
and the first call at or past the TTL boundary invokes exactly one fetch. -/
theorem getShutdown_ttl_cache (s0 : DtekState) (t0 now : Int)
    (fetch : Except String (Option DtekShutdown))
    (hmiss : s0.cacheHit = false) :
    (now - t0 < dtekCacheTTL →
      getShutdown ((getShutdown s0 t0 (Except.ok none)).2.1) now fetch =
        (Except.ok none, (getShutdown s0 t0 (Except.ok none)).2.1, false)) ∧
    (dtekCacheTTL ≤ now - t0 →
      (getShutdown ((getShutdown s0 t0 (Except.ok none)).2.1) now fetch).2.2 =
        true) := by
  have hstate : (getShutdown s0 t0 (Except.ok none)).2.1 =
      { cachedAt := t0, cachedValue := none, cacheHit := true } := by
    unfold getShutdown
    rw [hmiss]
    rfl
  rw [hstate]
  constructor
  · intro hfresh
    unfold getShutdown
    rw [if_pos]
    simp only [Bool.and_eq_true, decide_eq_true_eq]
    exact ⟨trivial, hfresh⟩
  · intro hstale
    unfold getShutdown
    rw [if_neg]
    · cases fetch <;> rfl
    · simp only [Bool.and_eq_true, decide_eq_true_eq, not_and, not_lt]
      intro _
      exact hstale

/-- C6 witness: fetch cached at instant 0; a call at 599 s is served from
the cache without fetching, a call at 600 s fetches. -/
theorem getShutdown_ttl_cache_witness :
    getShutdown ((getShutdown ⟨0, none, false⟩ 0 (Except.ok none)).2.1) 599
        (Except.error "browser down") =
      (Except.ok none, (getShutdown ⟨0, none, false⟩ 0 (Except.ok none)).2.1,
        false) ∧
    (getShutdown ((getShutdown ⟨0, none, false⟩ 0 (Except.ok none)).2.1) 600
        (Except.error "browser down")).2.2 = true :=
  ⟨(getShutdown_ttl_cache ⟨0, none, false⟩ 0 599 (Except.error "browser down")
      rfl).1 (by decide),
   (getShutdown_ttl_cache ⟨0, none, false⟩ 0 600 (Except.error "browser down")
      rfl).2 (by decide)⟩

/-- C8: when `FetchShutdowns` fails on a cache miss, `GetShutdown` surfaces
the error and returns with every cache field exactly as it was. -/
theorem getShutdown_error_preserves_cache (s : DtekState) (now : Int)
    (e : String)
    (hmiss : (s.cacheHit && decide (now - s.cachedAt < dtekCacheTTL)) = false) :
    getShutdown s now (Except.error e) = (Except.error e, s, true) := by
  unfold getShutdown
  rw [hmiss]
  rfl

/-- C8 witness: a stale cache (cached at 0, called at 700) whose refresh
fetch fails keeps its cached value. -/
theorem getShutdown_error_preserves_cache_witness :
    getShutdown ⟨0, some ⟨"GPV", "08:00", "12:00", "planned", []⟩, true⟩ 700
        (Except.error "result=false") =
      (Except.error "result=false",
        ⟨0, some ⟨"GPV", "08:00", "12:00", "planned", []⟩, true⟩, true) :=
  getShutdown_error_preserves_cache
    ⟨0, some ⟨"GPV", "08:00", "12:00", "planned", []⟩, true⟩ 700
    "result=false" (by decide)

/-- In a batch that ascends by update identifier, the last element carries
the highest identifier. -/
theorem highestID_chain_last :
    ∀ batch : List TgUpdate,
      List.Chain' (fun a b => a.updateID ≤ b.updateID) batch →
      ∀ u, batch.getLast? = some u → highestID batch = u.updateID := by
  intro batch
  induction batch with
  | nil =>
    intro _ u h
    cases h
  | cons a rest ih =>
    intro hc u hl
    cases rest with
    | nil =>
      simp only [List.getLast?_singleton, Option.some.injEq] at hl
      subst hl
      rfl
    | cons b rest2 =>
      rw [List.getLast?_cons_cons] at hl
      have hab : a.updateID ≤ b.updateID := (List.chain'_cons.mp hc).1
      have hc2 := (List.chain'_cons.mp hc).2
      have step : highestID (a :: b :: rest2) = highestID (b :: rest2) := by
        show (b :: rest2).foldl (fun acc v => max acc v.updateID) a.updateID =
          rest2.foldl (fun acc v => max acc v.updateID) b.updateID
        rw [List.foldl_cons, max_eq_right hab]
      rw [step]
      exact ih hc2 u hl

/-- C5 counterexample: on the batch with identifiers 7 then 5 the stored
cursor becomes 6, not one past the highest identifier (8). -/
theorem nextOffset_not_highest_plus_one :
    ¬(nextOffset 0 [⟨7, true⟩, ⟨5, true⟩] =
        highestID [⟨7, true⟩, ⟨5, true⟩] + 1) := by
  decide

/-- C5 amended: after a non-empty batch the stored cursor equals one past
the identifier of the LAST update of the batch; when the batch ascends by
update identifier (the order the platform delivers), this is one past the
highest identifier — in particular 5, 6, 7 gives offset 8. -/
theorem nextOffset_advances (offset : Int) (batch : List TgUpdate)
    (u : TgUpdate) (hlast : batch.getLast? = some u) :
    nextOffset offset batch = u.updateID + 1 ∧
    (List.Chain' (fun a b => a.updateID ≤ b.updateID) batch →
      nextOffset offset batch = highestID batch + 1) := by
  constructor
  · unfold nextOffset
    rw [hlast]
  · intro hsort
    unfold nextOffset
    rw [hlast, highestID_chain_last batch hsort u hlast]

/-- C5 witness: the batch with identifiers 5, 6, 7 leaves the cursor at
8 = highest + 1. -/
theorem nextOffset_advances_witness :
    nextOffset 0 [⟨5, true⟩, ⟨6, true⟩, ⟨7, true⟩] =
      highestID [⟨5, true⟩, ⟨6, true⟩, ⟨7, true⟩] + 1 :=
  (nextOffset_advances 0 [⟨5, true⟩, ⟨6, true⟩, ⟨7, true⟩] ⟨7, true⟩
    (by decide)).2 (by simp [List.chain'_cons])

/-- Unfolding one cycle at the end of a processed prefix: the state after
`i + 1` cycles is the state after `i` cycles stepped through that cycle's
sample (an out-of-range index behaves as a failed cycle and changes
nothing). -/
theorem monitorState_take_succ (samples : List (Option Bool))
    (init : Option Bool) (i : Nat) :
    monitorState init (samples.take (i + 1)) =
      (checkAndNotify (monitorState init (samples.take i))
        (samples.getD i none)).1 := by
  induction samples generalizing init i with
  | nil =>
    simp only [List.take_nil, List.getD_nil]
    rfl
  | cons x rest ih =>
    cases i with
    | zero => rfl
    | succ k => exact ih (checkAndNotify init x).1 k

/-- A successful sample always leaves the sampled flag as the stored
state. -/
theorem checkAndNotify_some_state (st : Option Bool) (c : Bool) :
    (checkAndNotify st (some c)).1 = some c := by
  cases st with
  | none => rfl
  | some last =>
    by_cases h : c = last
    · subst h
      simp [checkAndNotify]
    · simp [checkAndNotify, h]

/-- The stored `lastHasGrid` equals the flag of the last successfully
sampled cycle, falling back to the initial state when none sampled. -/
theorem monitorState_eq_lastSampled (samples : List (Option Bool))
    (init : Option Bool) :
    monitorState init samples = (lastSampled samples).elim init some := by
  induction samples generalizing init with
  | nil => rfl
  | cons x rest ih =>
    cases x with
    | none =>
      have h0 : monitorState init (none :: rest) = monitorState init rest :=
        rfl
      rw [h0, ih init]
      cases hl : lastSampled rest <;> simp [lastSampled, hl]
    | some c =>
      have h1 : monitorState init (some c :: rest) =
          monitorState (some c) rest := by
        show monitorState (checkAndNotify init (some c)).1 rest = _
        rw [checkAndNotify_some_state]
      rw [h1, ih (some c)]
      show (lastSampled rest).elim (some c) some =
        (lastSampled (some c :: rest)).elim init some
      cases hl : lastSampled rest with
      | none => simp [lastSampled, hl]
      | some b => simp [lastSampled, hl]

/-- C2: after the initial sample, a poll cycle emits an alert-style
transition notification iff its sampled flag differs from the flag of the
immediately preceding successfully sampled cycle, and it stores its flag;
a cycle whose telemetry fetch fails emits nothing and leaves the stored
flag unchanged. -/
theorem monitor_edge_triggered (samples : List (Option Bool)) (i : Nat) :
    (samples.getD i none = none →
      emitAt samples i = [] ∧
      monitorState none (samples.take (i + 1)) =
        monitorState none (samples.take i)) ∧
    (∀ b prev, samples.getD i none = some b →
      lastSampled (samples.take i) = some prev →
      ((emitsTransition (emitAt samples i) = true) ↔ b ≠ prev) ∧
      monitorState none (samples.take (i + 1)) = some b) := by
  constructor
  · intro hfail
    refine ⟨?_, ?_⟩
    · unfold emitAt
      rw [hfail]
      rfl
    · rw [monitorState_take_succ, hfail]
      rfl
  · intro b prev hb hprev
    have hstate : monitorState none (samples.take i) = some prev := by
      rw [monitorState_eq_lastSampled, hprev]
      rfl
    constructor
    · unfold emitAt
      rw [hb, hstate]
      by_cases h : b = prev
      · subst h
        simp [checkAndNotify, emitsTransition]
      · simp only [checkAndNotify, if_pos h, ne_eq, h, not_false_iff,
          iff_true]
        cases b <;> rfl
    · rw [monitorState_take_succ, hb, hstate, checkAndNotify_some_state]

/-- C2 witness: the run failed-free sample true, failed cycle, sample
false — the third cycle is a transition (false differs from true) and
stores false. -/
theorem monitor_edge_triggered_witness :
    ((emitsTransition (emitAt [some true, none, some false] 2) = true) ↔
      (false ≠ true)) ∧
    monitorState none ([some true, none, some false].take 3) = some false :=
  (monitor_edge_triggered [some true, none, some false] 2).2 false true rfl
    rfl

/-- C7: the first successful poll (no successfully sampled cycle precedes
it) emits exactly one initial-status notification, never an alert-style
transition notification, and records the sampled flag. -/
theorem monitor_first_sample (samples : List (Option Bool)) (i : Nat)
    (b : Bool) (hfirst : lastSampled (samples.take i) = none)
    (hb : samples.getD i none = some b) :
    emitAt samples i = [Notification.initial b] ∧
    emitsTransition (emitAt samples i) = false ∧
    monitorState none (samples.take (i + 1)) = some b := by
  have hstate : monitorState none (samples.take i) = none := by
    rw [monitorState_eq_lastSampled, hfirst]
    rfl
  refine ⟨?_, ?_, ?_⟩
  · unfold emitAt
    rw [hb, hstate]
    rfl
  · unfold emitAt
    rw [hb, hstate]
    cases b <;> rfl
  · rw [monitorState_take_succ, hb, hstate, checkAndNotify_some_state]

/-- C7 witness: a failed first cycle followed by the first successful
sample true. -/
theorem monitor_first_sample_witness :
    emitAt [none, some true] 1 = [Notification.initial true] ∧
    emitsTransition (emitAt [none, some true] 1) = false ∧
    monitorState none ([none, some true].take 2) = some true :=
  monitor_first_sample [none, some true] 1 true rfl rfl

/-- C1 (code behaviour at the failing input): against a server that
answers 401 to every authenticated telemetry request while every
re-authentication succeeds, `doRequest` never returns within any number
of recursive calls — after the second 401 it re-authenticates and retries
again instead of returning a terminal error, and so on unboundedly. -/
theorem doRequest_always401_never_returns (fuel : Nat) (s : ClientState)
    (r a : Nat) :
    doRequestFuel always401Env fuel s r a = none := by
  induction fuel generalizing s r a with
  | zero => rfl
  | succ n ih =>
    simp only [doRequestFuel, getTokenCall, authenticateCall, always401Env,
      reduceIte]
    by_cases hc : (decide (s.accessToken = "") || s.expiredNow) = true
    · rw [if_pos hc]
      exact ih _ _ _
    · rw [if_neg hc]
      exact ih _ _ _

/-- C4 counterexample: under the schedule in which both callers pass their
lock-protected expiry check before either authenticates, both callers
complete and two authentication requests are issued — the claimed
at-most-one duplicate-free behaviour does not hold. -/
theorem getToken_race_two_auth_requests :
    (tmRun tmInit tmRaceSchedule).authCount = 2 ∧
    (tmRun tmInit tmRaceSchedule).thread0.loc = TmLoc.finished ∧
    (tmRun tmInit tmRaceSchedule).thread1.loc = TmLoc.finished := by
  decide

/-- The lock-shape invariant is preserved by every step of either
caller. -/
theorem tmLockInv_step (s : TmState) (tid : Bool) (h : tmLockInv s) :
    tmLockInv (tmStep s tid) := by
  obtain ⟨h0, h1⟩ := h
  rcases s with ⟨lock, tv, ac, ⟨l0, n0⟩, ⟨l1, n1⟩⟩
  cases tid
  · cases l0 <;> cases lock <;> cases n0 <;>
      simp_all [tmStep, tmThreadStep, TmLoc.holdsLock, tmLockInv]
  · cases l1 <;> cases lock <;> cases n1 <;>
      simp_all [tmStep, tmThreadStep, TmLoc.holdsLock, tmLockInv]

/-- The lock-shape invariant holds after any schedule from the initial
racing state. -/
theorem tmLockInv_run (sched : List Bool) :
    tmLockInv (tmRun tmInit sched) := by
  have hstep : ∀ s : TmState, tmLockInv s →
      ∀ l : List Bool, tmLockInv (tmRun s l) := by
    intro s hs l
    induction l generalizing s with
    | nil => exact hs
    | cons tid rest ih => exact ih (tmStep s tid) (tmLockInv_step s tid hs)
  refine hstep tmInit ?_ sched
  exact ⟨fun hc => absurd hc (by decide), fun hc => absurd hc (by decide)⟩

/-- C4 amended: `getToken` releases the mutex between the expiry check and
the call to `Authenticate`, so two racing callers may each issue an
authentication request; the mutex is, however, held for the whole of each
`Authenticate` exchange, so at most one re-authentication is in flight in
every reachable state — and the duplicate-request race is realized by
`tmRaceSchedule`. -/
theorem getToken_race_serialized (sched : List Bool) :
    (¬((tmRun tmInit sched).thread0.loc = TmLoc.authCS ∧
        (tmRun tmInit sched).thread1.loc = TmLoc.authCS)) ∧
    (tmRun tmInit tmRaceSchedule).authCount = 2 := by
  constructor
  · intro hboth
    obtain ⟨hinv0, hinv1⟩ := tmLockInv_run sched
    have e0 : (tmRun tmInit sched).lock = some false := by
      apply hinv0
      rw [hboth.1]
      rfl
    have e1 : (tmRun tmInit sched).lock = some true := by
      apply hinv1
      rw [hboth.2]
      rfl
    rw [e0] at e1
    exact absurd (Option.some.inj e1) (by decide)
  · decide

/-- C4 amended witness: both properties evaluated on the racing
schedule. -/
theorem getToken_race_serialized_witness :
    (tmRun tmInit tmRaceSchedule).authCount = 2 :=
  (getToken_race_serialized tmRaceSchedule).2

end Svitlo
